import Mathlib

/-!
Verification development for the ListHub Git Smart HTTP gateway
(`git_backend.py`) and the API authentication decorator (`auth.py`).

The Python source is shallowly embedded: each route handler and helper
becomes a pure Lean function.  Effects are made explicit:

* the SQLite user/api_key tables become a `Db` value;
* the filesystem of bare repositories becomes a `FileSystem` association
  list from repository path to a `RepoState` record (HEAD target,
  `http.receivepack` flag, installed hook program and hook config file);
* the Git plumbing subprocess is an oracle value `ProcOut` (return code,
  captured stdout, captured stderr) supplied to the handler;
* `bcrypt.checkpw` and `hashlib.sha256` are opaque oracles in a `Crypto`
  record; `checkpw` returns `none` to model a raised exception (the
  Python code wraps the call in `try/except`);
* Flask's `abort(n)` and `Response(...)` both become an `HttpResponse`
  value returned by the handler.

Python strings are modelled by Lean `String`; the character-level
operations `startswith`, slicing and `endswith` are embedded by
`charsStartsWith`, `strDrop` and `charsEndsWith`, which operate on the
character list exactly as Python does.
-/

namespace ListHub

/-- Character-level embedding of Python `s.startswith(p)`. -/
def charsStartsWith (s p : String) : Bool :=
  List.isPrefixOf p.toList s.toList

/-- Character-level embedding of Python `s.endswith(p)`. -/
def charsEndsWith (s p : String) : Bool :=
  List.isSuffixOf p.toList s.toList

/-- Character-level embedding of Python `s[n:]`. -/
def strDrop (s : String) (n : Nat) : String :=
  String.mk (s.toList.drop n)

/-- Row of the `user` table (the fields the gateway reads). -/
structure User where
  id : String
  username : String
  password_hash : String
deriving DecidableEq, Repr

/-- Row of the `api_key` table (the fields the gateway reads).
`scopes` is nullable in the schema, hence `Option`. -/
structure ApiKey where
  key_hash : String
  user_id : String
  scopes : Option String
deriving DecidableEq, Repr

/-- The credential store: the `user` and `api_key` tables. -/
structure Db where
  users : List User
  api_keys : List ApiKey
deriving DecidableEq, Repr

/-- Embedding of `User.get_by_username` (models.py): first row whose
`username` column matches. -/
def get_by_username (db : Db) (username : String) : Option User :=
  db.users.find? (fun u => u.username == username)

/-- Embedding of `User.get_by_api_key` (models.py): join of `user` and
`api_key` on `user_id` filtered by `key_hash`. -/
def get_by_api_key (db : Db) (key_hash : String) : Option User :=
  match db.api_keys.find? (fun k => k.key_hash == key_hash) with
  | none => none
  | some k => db.users.find? (fun u => u.id == k.user_id)

/-- Oracles for the cryptographic primitives.  `checkpw p h = none`
models `bcrypt.checkpw` raising an exception (e.g. malformed stored
hash); `some b` models a normal return of `b`. -/
structure Crypto where
  checkpw : String → String → Option Bool
  sha256_hex : String → String

/-- Embedding of `hash_api_key` (auth.py): SHA-256 hex digest of the raw
key. -/
def hash_api_key (c : Crypto) (raw_key : String) : String :=
  c.sha256_hex raw_key

/-- The parsed HTTP Basic Authentication pair (`request.authorization`). -/
structure BasicAuth where
  username : String
  password : String
deriving DecidableEq, Repr

/-- Embedding of `_check_basic_auth` (git_backend.py lines 50-85).
Returns the authenticated user, or `none`.  The `try/except` around
`bcrypt.checkpw` is modelled by only accepting `some true`: an exception
(`none`) or a `false` result both fall through to the API-key lookup. -/
def check_basic_auth (c : Crypto) (db : Db) (auth : Option BasicAuth) : Option User :=
  match auth with
  | none => none
  | some a =>
    if a.username = "" ∨ a.password = "" then none
    else
      match get_by_username db a.username with
      | none => none
      | some user =>
        if c.checkpw a.password user.password_hash = some true then some user
        else
          match db.api_keys.find?
              (fun k => k.key_hash == c.sha256_hex a.password && k.user_id == user.id) with
          | some _ => some user
          | none => none

/-- An HTTP response value.  `abort(n)` is modelled as a bare response
with that status and empty body. -/
structure HttpResponse where
  status : Nat
  body : String
  content_type : Option String
  headers : List (String × String)
deriving DecidableEq, Repr

/-- Embedding of Flask `abort(n)`. -/
def abortResp (n : Nat) : HttpResponse :=
  { status := n, body := "", content_type := none, headers := [] }

/-- The 401 challenge response built by `_require_auth`. -/
def authRequired401 : HttpResponse :=
  { status := 401
    body := "Authentication required\n"
    content_type := none
    headers := [("WWW-Authenticate", "Basic realm=\"ListHub Git\"")] }

/-- Embedding of `_require_auth` (git_backend.py lines 88-102): 401 with
a Basic challenge when credentials do not resolve, 403 when the resolved
user is not the target username. -/
def require_auth (c : Crypto) (db : Db) (auth : Option BasicAuth) (username : String) :
    Except HttpResponse User :=
  match check_basic_auth c db auth with
  | none => .error authRequired401
  | some user =>
    if user.username ≠ username then .error (abortResp 403)
    else .ok user

/-- Environment-derived configuration of the gateway (git_backend.py
lines 38-43) plus the contents of the hook program template file
`hooks/post-receive` (opaque to this core). -/
structure Config where
  REPO_ROOT : String
  ADMIN_TOKEN : String
  BASE_URL : String
  hook_template : String

/-- Embedding of Python `os.path.join(a, b)` for the two-argument calls
the gateway makes. -/
def path_join (a b : String) : String :=
  if charsStartsWith b "/" then b
  else if a = "" then b
  else if charsEndsWith a "/" then a ++ b
  else a ++ "/" ++ b

/-- Embedding of the sanitisation step of `_repo_path`: Python
`''.join(c for c in username if c.isalnum())`. -/
def sanitize (username : String) : String :=
  String.mk (username.toList.filter Char.isAlphanum)

/-- Embedding of `_repo_path` (git_backend.py lines 109-113). -/
def repo_path (root username : String) : String :=
  path_join root (sanitize username ++ ".git")

/-- State of one bare repository directory: symbolic HEAD target, the
`http.receivepack` config flag, and the two files the hook installer
writes (`hooks/post-receive` contents plus its executable bit, and
`hooks/listhub.conf` contents). -/
structure RepoState where
  head_target : String
  receivepack_flag : Bool
  hook_program : Option String
  hook_exec : Bool
  hook_conf : Option String
deriving DecidableEq, Repr

/-- The repository filesystem: association list from repository path to
repository state.  A path absent from the list is a directory that does
not exist (`os.path.isdir` false). -/
abbrev FileSystem := List (String × RepoState)

/-- Look up a repository directory (`os.path.isdir` + reading state). -/
def fs_lookup (fs : FileSystem) (p : String) : Option RepoState :=
  match fs.find? (fun e => e.1 == p) with
  | some e => some e.2
  | none => none

/-- Write a repository state at a path, replacing any previous entry. -/
def fs_store (fs : FileSystem) (p : String) (r : RepoState) : FileSystem :=
  match fs with
  | [] => [(p, r)]
  | e :: rest => if e.1 == p then (p, r) :: rest else e :: fs_store rest p r

/-- Contents of `hooks/listhub.conf` as written by `_install_hook`
(git_backend.py lines 176-180). -/
def hook_conf_contents (cfg : Config) (username : String) : String :=
  "LISTHUB_USERNAME=" ++ username ++ "\n" ++
  "LISTHUB_BASE_URL=" ++ cfg.BASE_URL ++ "\n" ++
  "LISTHUB_ADMIN_TOKEN=" ++ cfg.ADMIN_TOKEN ++ "\n"

/-- Embedding of `_install_hook` (git_backend.py lines 156-180): copy
the hook template over `hooks/post-receive`, set its executable bits,
and overwrite `hooks/listhub.conf` with the current settings.  All other
fields of the repository are untouched. -/
def install_hook (cfg : Config) (fs : FileSystem) (repo username : String) : FileSystem :=
  let r := (fs_lookup fs repo).getD
    { head_target := "", receivepack_flag := false
      hook_program := none, hook_exec := false, hook_conf := none }
  fs_store fs repo
    { r with
      hook_program := some cfg.hook_template
      hook_exec := true
      hook_conf := some (hook_conf_contents cfg username) }

/-- State of a freshly provisioned bare repository: `git init --bare`,
then `git symbolic-ref HEAD refs/heads/main`, then
`git config http.receivepack true` (git_backend.py lines 127-148). -/
def freshRepo : RepoState :=
  { head_target := "refs/heads/main"
    receivepack_flag := true
    hook_program := none
    hook_exec := false
    hook_conf := none }

/-- Embedding of `init_user_repo` (git_backend.py lines 116-153): create
and configure the bare repository if its directory does not exist, then
always (re)install the hook; returns the new filesystem and the repo
path. -/
def init_user_repo (cfg : Config) (fs : FileSystem) (username : String) :
    FileSystem × String :=
  let repo := repo_path cfg.REPO_ROOT username
  let fs1 := match fs_lookup fs repo with
    | some _ => fs
    | none => fs_store fs repo freshRepo
  (install_hook cfg fs1 repo username, repo)

/-- Outcome of a Git plumbing subprocess (`Popen` + `communicate`):
return code, captured stdout bytes, captured stderr bytes.  Byte strings
are modelled as `String`. -/
structure ProcOut where
  returncode : Int
  stdout : String
  stderr : String
deriving DecidableEq, Repr

/-- Lowercase hex rendering with zero-padding to (at least) four digits:
embedding of the Python format `f'\x7bn:04x\x7d'`. -/
def hex4 (n : Nat) : String :=
  let ds := Nat.toDigits 16 n
  String.mk (List.replicate (4 - ds.length) '0' ++ ds)

/-- Specification-side predicate: a lowercase hexadecimal digit. -/
def isLowerHexDigit (ch : Char) : Bool :=
  ch.isDigit || (('a' ≤ ch) && (ch ≤ 'f'))

/-- Specification-side value of one lowercase hexadecimal digit. -/
def hexCharVal (ch : Char) : Nat :=
  if ch.isDigit then ch.toNat - '0'.toNat else ch.toNat - 'a'.toNat + 10

/-- Specification-side decoding of a hexadecimal string back to the
number it declares. -/
def hexStrVal (s : String) : Nat :=
  s.toList.foldl (fun acc ch => 16 * acc + hexCharVal ch) 0

/-- Embedding of the `info_refs` route (git_backend.py lines 206-254).
`service` is the raw `service` query parameter (`none` when absent);
`advertise` is the oracle for the `--advertise-refs` subprocess run.
Returns the filesystem after the request together with the response. -/
def info_refs (cfg : Config) (c : Crypto) (db : Db) (fs : FileSystem)
    (auth : Option BasicAuth) (service : Option String) (username : String)
    (advertise : ProcOut) : FileSystem × HttpResponse :=
  match require_auth c db auth username with
  | .error r => (fs, r)
  | .ok _ =>
    let svc := service.getD ""
    if svc ≠ "git-upload-pack" ∧ svc ≠ "git-receive-pack" then
      (fs, abortResp 400)
    else
      let repo := repo_path cfg.REPO_ROOT username
      let fs1 := if (fs_lookup fs repo).isSome then fs
                 else (init_user_repo cfg fs username).1
      if advertise.returncode ≠ 0 then
        (fs1, { status := 500
                body := "Git error: " ++ advertise.stderr ++ "\n"
                content_type := none, headers := [] })
      else
        let service_line := "# service=" ++ svc ++ "\n"
        let pkt_len := service_line.length + 4
        let pkt := hex4 pkt_len ++ service_line
        let body := pkt ++ "0000" ++ advertise.stdout
        (fs1, { status := 200
                body := body
                content_type := some ("application/x-" ++ svc ++ "-advertisement")
                headers := [("Cache-Control", "no-cache")] })

/-- Embedding of `_run_git_service` (git_backend.py lines 288-313):
non-zero exit with empty stdout is a 500 carrying stderr; otherwise the
captured stdout is returned as a 200. -/
def run_git_service (proc : ProcOut) (content_type : String) : HttpResponse :=
  if proc.returncode ≠ 0 ∧ proc.stdout = "" then
    { status := 500
      body := "Git error: " ++ proc.stderr ++ "\n"
      content_type := none, headers := [] }
  else
    { status := 200
      body := proc.stdout
      content_type := some content_type
      headers := [("Cache-Control", "no-cache")] }

/-- Embedding of the `upload_pack` route (git_backend.py lines 257-269):
404 when the repository directory does not exist, no auto-create. -/
def upload_pack (cfg : Config) (c : Crypto) (db : Db) (fs : FileSystem)
    (auth : Option BasicAuth) (username : String) (proc : ProcOut) :
    FileSystem × HttpResponse :=
  match require_auth c db auth username with
  | .error r => (fs, r)
  | .ok _ =>
    let repo := repo_path cfg.REPO_ROOT username
    if (fs_lookup fs repo).isNone then (fs, abortResp 404)
    else (fs, run_git_service proc "application/x-git-upload-pack-result")

/-- Embedding of the `receive_pack` route (git_backend.py lines 272-285):
the repository is auto-provisioned when absent, then the service runs. -/
def receive_pack (cfg : Config) (c : Crypto) (db : Db) (fs : FileSystem)
    (auth : Option BasicAuth) (username : String) (proc : ProcOut) :
    FileSystem × HttpResponse :=
  match require_auth c db auth username with
  | .error r => (fs, r)
  | .ok _ =>
    let repo := repo_path cfg.REPO_ROOT username
    let fs1 := if (fs_lookup fs repo).isSome then fs
               else (init_user_repo cfg fs username).1
    (fs1, run_git_service proc "application/x-git-receive-pack-result")

/-- Resolution outcome of the `require_api_auth` decorator (auth.py
lines 23-62): the wrapped view runs with a session user, or with an
API-resolved user and scope list, or the request is rejected 401. -/
inductive ApiAuthResult where
  | viaSession
  | viaToken (user : User) (scopes : List String)
  | denied (status : Nat)
deriving DecidableEq, Repr

/-- Embedding of Python `headers.get(k, '')`. -/
def get_header (headers : List (String × String)) (k : String) : String :=
  match headers.find? (fun h => h.1 == k) with
  | some h => h.2
  | none => ""

/-- Embedding of the `require_api_auth` decorator body (auth.py lines
23-62).  `session_auth` models `current_user.is_authenticated`.  The
admin-token branch requires the configured token to be non-empty, the
Bearer token to equal it, and a non-empty `X-ListHub-User` header naming
a registered user; it then grants scopes read/write/sync.  Otherwise the
Bearer token is looked up as an API key. -/
def require_api_auth (cfg : Config) (c : Crypto) (db : Db)
    (session_auth : Bool) (headers : List (String × String)) : ApiAuthResult :=
  if session_auth then .viaSession
  else
    let auth_header := get_header headers "Authorization"
    if charsStartsWith auth_header "Bearer " then
      let raw_key := strDrop auth_header 7
      let admin_user :=
        if cfg.ADMIN_TOKEN ≠ "" ∧ raw_key = cfg.ADMIN_TOKEN then
          let target := get_header headers "X-ListHub-User"
          if target ≠ "" then get_by_username db target else none
        else none
      match admin_user with
      | some user => .viaToken user ["read", "write", "sync"]
      | none =>
        let key_h := hash_api_key c raw_key
        match get_by_api_key db key_h with
        | some user =>
          let scopes :=
            match db.api_keys.find? (fun k => k.key_hash == key_h) with
            | some row =>
              match row.scopes with
              | some s => if s = "" then ["read"] else s.splitOn ","
              | none => ["read"]
            | none => ["read"]
          .viaToken user scopes
        | none => .denied 401
    else .denied 401

/-! Concrete test fixtures.  `wCrypto` instantiates the crypto oracles
with executable stand-ins: a stored hash `"bc:" ++ p` verifies exactly
the password `p`, the stored hash `"RAISE"` makes `bcrypt.checkpw`
raise, and the SHA-256 digest of `s` is `"sha:" ++ s`. -/

/-- Executable stand-in for the crypto oracles. -/
def wCrypto : Crypto :=
  { checkpw := fun p h => if h = "RAISE" then none else some (h == "bc:" ++ p)
    sha256_hex := fun s => "sha:" ++ s }

/-- Fixture user alice (password `S3cretPW`). -/
def wAlice : User :=
  { id := "u1", username := "alice", password_hash := "bc:S3cretPW" }

/-- Fixture user bob (password `bobpw123`, API key `bobkey`). -/
def wBob : User :=
  { id := "u2", username := "bob", password_hash := "bc:bobpw123" }

/-- Fixture user carol (password `carolpw1`). -/
def wCarol : User :=
  { id := "u3", username := "carol", password_hash := "bc:carolpw1" }

/-- Fixture user dave whose stored password hash makes bcrypt raise. -/
def wDave : User :=
  { id := "u4", username := "dave", password_hash := "RAISE" }

/-- Fixture API key row for bob. -/
def wBobKey : ApiKey :=
  { key_hash := "sha:bobkey", user_id := "u2", scopes := some "read,write" }

/-- Fixture API key row for dave. -/
def wDaveKey : ApiKey :=
  { key_hash := "sha:davekey", user_id := "u4", scopes := none }

/-- Fixture credential store. -/
def wDb : Db :=
  { users := [wAlice, wBob, wCarol, wDave]
    api_keys := [wBobKey, wDaveKey] }

/-- Fixture gateway configuration with admin token `hooktok`. -/
def wCfg : Config :=
  { REPO_ROOT := "/repos"
    ADMIN_TOKEN := "hooktok"
    BASE_URL := "http://localhost:3200"
    hook_template := "HOOK" }

/-! Helper lemmas about the filesystem map and the character-level
string operations. -/

theorem fs_lookup_cons (e : String × RepoState) (l : FileSystem) (p : String) :
    fs_lookup (e :: l) p = if e.1 = p then some e.2 else fs_lookup l p := by
  by_cases h : e.1 = p <;> simp [fs_lookup, List.find?_cons, h]

theorem fs_lookup_store_self (fs : FileSystem) (p : String) (r : RepoState) :
    fs_lookup (fs_store fs p r) p = some r := by
  induction fs with
  | nil => simp [fs_store, fs_lookup]
  | cons e rest ih =>
    by_cases h : e.1 = p
    · simp [fs_store, h, fs_lookup_cons]
    · simp [fs_store, h, fs_lookup_cons, ih]

theorem fs_lookup_store_ne (fs : FileSystem) (p q : String) (r : RepoState)
    (h : q ≠ p) : fs_lookup (fs_store fs p r) q = fs_lookup fs q := by
  induction fs with
  | nil => simp [fs_store, fs_lookup_cons, fs_lookup, Ne.symm h]
  | cons e rest ih =>
    by_cases he : e.1 = p
    · subst he
      simp [fs_store, fs_lookup_cons, Ne.symm h]
    · simp [fs_store, he, fs_lookup_cons, ih]

theorem charsStartsWith_append_self (p t : String) :
    charsStartsWith (p ++ t) p = true := by
  rw [charsStartsWith, List.isPrefixOf_iff_prefix]
  rw [show (p ++ t).toList = p.toList ++ t.toList from String.data_append p t]
  exact List.prefix_append _ _

theorem strDrop_bearer (t : String) : strDrop ("Bearer " ++ t) 7 = t := by
  rw [strDrop]
  rw [show ("Bearer " ++ t).toList = "Bearer ".toList ++ t.toList from
        String.data_append _ _]
  rw [show (7 : Nat) = "Bearer ".toList.length from rfl]
  rw [List.drop_left]
  rfl

theorem init_user_repo_creates (cfg : Config) (fs : FileSystem) (username : String) :
    ∃ r : RepoState,
      fs_lookup (init_user_repo cfg fs username).1 (repo_path cfg.REPO_ROOT username) =
        some r := by
  rw [← Option.isSome_iff_exists]
  simp only [init_user_repo, install_hook, fs_lookup_store_self, Option.isSome_some]

/-- C2: a request to any of the three Git endpoints for another
identity's repository path that authenticates successfully as some user
fails with 403, for any filesystem state and any subprocess outcome. -/
theorem C2_cross_identity_forbidden (cfg : Config) (c : Crypto) (db : Db)
    (fs : FileSystem) (auth : Option BasicAuth) (svc : Option String)
    (username : String) (adv proc1 proc2 : ProcOut) (user : User)
    (hAuth : check_basic_auth c db auth = some user)
    (hNe : user.username ≠ username) :
    info_refs cfg c db fs auth svc username adv = (fs, abortResp 403) ∧
    upload_pack cfg c db fs auth username proc1 = (fs, abortResp 403) ∧
    receive_pack cfg c db fs auth username proc2 = (fs, abortResp 403) := by
  have hreq : require_auth c db auth username = .error (abortResp 403) := by
    simp [require_auth, hAuth, hNe]
  refine ⟨?_, ?_, ?_⟩ <;> simp [info_refs, upload_pack, receive_pack, hreq]

theorem C2_witness :
    check_basic_auth wCrypto wDb (some ⟨"bob", "bobpw123"⟩) = some wBob ∧
    upload_pack wCfg wCrypto wDb [] (some ⟨"bob", "bobpw123"⟩) "alice" ⟨0, "", ""⟩ =
      ([], abortResp 403) :=
  ⟨rfl,
   (C2_cross_identity_forbidden wCfg wCrypto wDb [] (some ⟨"bob", "bobpw123"⟩)
      (some "git-upload-pack") "alice" ⟨0, "", ""⟩ ⟨0, "", ""⟩ ⟨0, "", ""⟩ wBob rfl
      (by decide)).2.1⟩

/-- C10: an authenticated discovery request whose service parameter is
absent or unrecognized is rejected with 400 and the filesystem is
unchanged, for every filesystem state (in particular no repository is
provisioned). -/
theorem C10_bad_service_rejected (cfg : Config) (c : Crypto) (db : Db)
    (fs : FileSystem) (auth : Option BasicAuth) (svc : Option String)
    (username : String) (adv : ProcOut) (user : User)
    (hAuth : check_basic_auth c db auth = some user)
    (hU : user.username = username)
    (hBad1 : svc.getD "" ≠ "git-upload-pack")
    (hBad2 : svc.getD "" ≠ "git-receive-pack") :
    info_refs cfg c db fs auth svc username adv = (fs, abortResp 400) := by
  have hreq : require_auth c db auth username = .ok user := by
    simp [require_auth, hAuth, hU]
  simp [info_refs, hreq, hBad1, hBad2]

theorem C10_witness :
    check_basic_auth wCrypto wDb (some ⟨"alice", "S3cretPW"⟩) = some wAlice ∧
    info_refs wCfg wCrypto wDb [] (some ⟨"alice", "S3cretPW"⟩) none "alice" ⟨0, "", ""⟩ =
      ([], abortResp 400) :=
  ⟨rfl,
   C10_bad_service_rejected wCfg wCrypto wDb [] (some ⟨"alice", "S3cretPW"⟩) none
     "alice" ⟨0, "", ""⟩ wAlice rfl rfl (by decide) (by decide)⟩

/-- C4: for an authenticated request whose target repository directory
does not exist, the fetch endpoint returns 404 leaving the filesystem
untouched, while the push endpoint first provisions the repository
(which then exists) and runs the service on it. -/
theorem C4_absent_repo_fetch_vs_push (cfg : Config) (c : Crypto) (db : Db)
    (fs : FileSystem) (auth : Option BasicAuth) (username : String)
    (proc1 proc2 : ProcOut) (user : User)
    (hAuth : check_basic_auth c db auth = some user)
    (hU : user.username = username)
    (hAbs : fs_lookup fs (repo_path cfg.REPO_ROOT username) = none) :
    upload_pack cfg c db fs auth username proc1 = (fs, abortResp 404) ∧
    receive_pack cfg c db fs auth username proc2 =
      ((init_user_repo cfg fs username).1,
       run_git_service proc2 "application/x-git-receive-pack-result") ∧
    (∃ r : RepoState,
      fs_lookup (receive_pack cfg c db fs auth username proc2).1
        (repo_path cfg.REPO_ROOT username) = some r) := by
  have hreq : require_auth c db auth username = .ok user := by
    simp [require_auth, hAuth, hU]
  have h1 : upload_pack cfg c db fs auth username proc1 = (fs, abortResp 404) := by
    simp [upload_pack, hreq, hAbs]
  have h2 : receive_pack cfg c db fs auth username proc2 =
      ((init_user_repo cfg fs username).1,
       run_git_service proc2 "application/x-git-receive-pack-result") := by
    simp [receive_pack, hreq, hAbs]
  refine ⟨h1, h2, ?_⟩
  rw [h2]
  exact init_user_repo_creates cfg fs username

theorem C4_witness :
    check_basic_auth wCrypto wDb (some ⟨"alice", "S3cretPW"⟩) = some wAlice ∧
    fs_lookup [] (repo_path wCfg.REPO_ROOT "alice") = none ∧
    upload_pack wCfg wCrypto wDb [] (some ⟨"alice", "S3cretPW"⟩) "alice" ⟨0, "", ""⟩ =
      ([], abortResp 404) :=
  ⟨rfl, rfl,
   (C4_absent_repo_fetch_vs_push wCfg wCrypto wDb [] (some ⟨"alice", "S3cretPW"⟩)
      "alice" ⟨0, "", ""⟩ ⟨0, "", ""⟩ wAlice rfl rfl rfl).1⟩

/-- C6: for the stateless-RPC endpoints, an authenticated request with
an existing repository returns exactly the `run_git_service` outcome,
and that outcome is: 500 carrying stderr when the subprocess exits
non-zero with empty stdout, and a 200 carrying the captured stdout when
it exits non-zero with output or exits zero. -/
theorem C6_rpc_exit_code_handling (cfg : Config) (c : Crypto) (db : Db)
    (fs : FileSystem) (auth : Option BasicAuth) (username : String)
    (proc : ProcOut) (user : User)
    (hAuth : check_basic_auth c db auth = some user)
    (hU : user.username = username)
    (hPresent : (fs_lookup fs (repo_path cfg.REPO_ROOT username)).isSome) :
    ((upload_pack cfg c db fs auth username proc).2 =
        run_git_service proc "application/x-git-upload-pack-result" ∧
     (receive_pack cfg c db fs auth username proc).2 =
        run_git_service proc "application/x-git-receive-pack-result") ∧
    (∀ (p : ProcOut) (ct : String), p.returncode ≠ 0 → p.stdout = "" →
      run_git_service p ct =
        { status := 500, body := "Git error: " ++ p.stderr ++ "\n"
          content_type := none, headers := [] }) ∧
    (∀ (p : ProcOut) (ct : String), p.returncode ≠ 0 → p.stdout ≠ "" →
      run_git_service p ct =
        { status := 200, body := p.stdout, content_type := some ct
          headers := [("Cache-Control", "no-cache")] }) ∧
    (∀ (p : ProcOut) (ct : String), p.returncode = 0 →
      run_git_service p ct =
        { status := 200, body := p.stdout, content_type := some ct
          headers := [("Cache-Control", "no-cache")] }) := by
  have hreq : require_auth c db auth username = .ok user := by
    simp [require_auth, hAuth, hU]
  refine ⟨⟨?_, ?_⟩, ?_, ?_, ?_⟩
  · simp [upload_pack, hreq, Option.isNone_iff_eq_none,
      Option.isSome_iff_ne_none.mp hPresent]
  · simp [receive_pack, hreq, hPresent]
  · intro p ct h1 h2
    simp [run_git_service, h1, h2]
  · intro p ct h1 h2
    simp [run_git_service, h1, h2]
  · intro p ct h1
    simp [run_git_service, h1]

theorem C6_witness :
    ((3 : Int) ≠ 0 ∧ "boom" ≠ "") ∧
    run_git_service ⟨3, "", "fatal"⟩ "application/x-git-upload-pack-result" =
      { status := 500, body := "Git error: fatal\n", content_type := none
        headers := [] } ∧
    run_git_service ⟨3, "boom", "fatal"⟩ "application/x-git-upload-pack-result" =
      { status := 200, body := "boom"
        content_type := some "application/x-git-upload-pack-result"
        headers := [("Cache-Control", "no-cache")] } :=
  ⟨⟨by decide, by decide⟩,
   (C6_rpc_exit_code_handling wCfg wCrypto wDb [(repo_path wCfg.REPO_ROOT "alice", freshRepo)]
      (some ⟨"alice", "S3cretPW"⟩) "alice" ⟨3, "", "fatal"⟩ wAlice rfl rfl
      (by simp [fs_lookup_cons])).2.1 ⟨3, "", "fatal"⟩ _ (by decide) rfl,
   (C6_rpc_exit_code_handling wCfg wCrypto wDb [(repo_path wCfg.REPO_ROOT "alice", freshRepo)]
      (some ⟨"alice", "S3cretPW"⟩) "alice" ⟨3, "", "fatal"⟩ wAlice rfl rfl
      (by simp [fs_lookup_cons])).2.2.1 ⟨3, "boom", "fatal"⟩ _ (by decide) (by decide)⟩

/-- C5: with a non-empty Basic credential pair, the secret is accepted
exactly when bcrypt verifies it against the stored password hash or its
SHA-256 digest matches an API key owned by the same identity; an unknown
username, a missing credential header, or a failed check yields the 401
response with the Basic challenge header. -/
theorem C5_basic_auth_characterization (c : Crypto) (db : Db) (a : BasicAuth)
    (user : User) (hu : a.username ≠ "") (hp : a.password ≠ "") :
    (get_by_username db a.username = some user →
      (check_basic_auth c db (some a) = some user ↔
        c.checkpw a.password user.password_hash = some true ∨
        ∃ k ∈ db.api_keys,
          k.key_hash = c.sha256_hex a.password ∧ k.user_id = user.id)) ∧
    (get_by_username db a.username = none →
      check_basic_auth c db (some a) = none) ∧
    (check_basic_auth c db none = none) ∧
    (∀ (auth : Option BasicAuth) (username : String),
      check_basic_auth c db auth = none →
      require_auth c db auth username = .error authRequired401) := by
  refine ⟨?_, ?_, rfl, ?_⟩
  · intro hfound
    simp only [check_basic_auth, hu, hp, false_or, if_false, hfound]
    by_cases hbc : c.checkpw a.password user.password_hash = some true
    · simp [hbc]
    · simp only [hbc, if_false, false_or]
      cases hfind : db.api_keys.find?
          (fun k => k.key_hash == c.sha256_hex a.password && k.user_id == user.id) with
      | some k =>
        simp only [true_iff]
        have hk := List.find?_some hfind
        simp only [Bool.and_eq_true, beq_iff_eq] at hk
        exact ⟨k, List.mem_of_find?_eq_some hfind, hk.1, hk.2⟩
      | none =>
        rw [List.find?_eq_none] at hfind
        refine iff_of_false (by simp) ?_
        rintro ⟨k, hmem, h1, h2⟩
        exact hfind k hmem (by simp [h1, h2])
  · intro hnone
    simp [check_basic_auth, hu, hp, hnone]
  · intro auth username h
    simp [require_auth, h]

theorem C5_witness :
    check_basic_auth wCrypto wDb (some ⟨"bob", "bobkey"⟩) = some wBob ∧
    require_auth wCrypto wDb (some ⟨"bob", "nope"⟩) "bob" = .error authRequired401 :=
  ⟨((C5_basic_auth_characterization wCrypto wDb ⟨"bob", "bobkey"⟩ wBob (by decide)
       (by decide)).1 rfl).mpr
     (Or.inr ⟨wBobKey, by simp [wDb], rfl, rfl⟩),
   (C5_basic_auth_characterization wCrypto wDb ⟨"bob", "nope"⟩ wBob (by decide)
       (by decide)).2.2.2 (some ⟨"bob", "nope"⟩) "bob" rfl⟩

/-- C9: when the bcrypt check raises (modelled as `checkpw` returning
`none`), Basic authentication behaves exactly as if the password check
had returned false — it falls through to the API-key lookup rather than
propagating a server error — and when that also fails the request gets
the 401 challenge response. -/
theorem C9_bcrypt_exception_fallthrough (c : Crypto) (db : Db) (a : BasicAuth)
    (user : User) (hfound : get_by_username db a.username = some user)
    (hexn : c.checkpw a.password user.password_hash = none) :
    check_basic_auth c db (some a) =
      check_basic_auth { c with checkpw := fun _ _ => some false } db (some a) ∧
    (check_basic_auth c db (some a) = none →
      ∀ username : String,
        require_auth c db (some a) username = .error authRequired401) := by
  constructor
  · by_cases hu : a.username = ""
    · simp [check_basic_auth, hu]
    · by_cases hp : a.password = ""
      · simp [check_basic_auth, hp]
      · simp [check_basic_auth, hu, hp, hfound, hexn]
  · intro h username
    simp [require_auth, h]

theorem C9_witness :
    wCrypto.checkpw "anything" wDave.password_hash = none ∧
    check_basic_auth wCrypto wDb (some ⟨"dave", "anything"⟩) =
      check_basic_auth { wCrypto with checkpw := fun _ _ => some false } wDb
        (some ⟨"dave", "anything"⟩) ∧
    check_basic_auth wCrypto wDb (some ⟨"dave", "davekey"⟩) = some wDave :=
  ⟨rfl,
   (C9_bcrypt_exception_fallthrough wCrypto wDb ⟨"dave", "anything"⟩ wDave rfl rfl).1,
   rfl⟩

/-- C7: provisioning an identity whose repository already exists keeps
the repository path stable, only re-runs the hook installer, rewrites
exactly the hook program, its executable bit and the hook configuration
file to the current settings (leaving the HEAD target and the
push-enable flag of the stored state unchanged), and touches no other
path of the filesystem. -/
theorem C7_provisioning_idempotent (cfg : Config) (fs : FileSystem)
    (username : String) (r : RepoState)
    (hPresent : fs_lookup fs (repo_path cfg.REPO_ROOT username) = some r) :
    (init_user_repo cfg fs username).2 = repo_path cfg.REPO_ROOT username ∧
    (init_user_repo cfg fs username).1 =
      install_hook cfg fs (repo_path cfg.REPO_ROOT username) username ∧
    fs_lookup (init_user_repo cfg fs username).1 (repo_path cfg.REPO_ROOT username) =
      some { r with
             hook_program := some cfg.hook_template
             hook_exec := true
             hook_conf := some (hook_conf_contents cfg username) } ∧
    (∀ q : String, q ≠ repo_path cfg.REPO_ROOT username →
      fs_lookup (init_user_repo cfg fs username).1 q = fs_lookup fs q) := by
  have h1 : (init_user_repo cfg fs username).1 =
      install_hook cfg fs (repo_path cfg.REPO_ROOT username) username := by
    simp [init_user_repo, hPresent]
  refine ⟨rfl, h1, ?_, ?_⟩
  · rw [h1]
    simp [install_hook, hPresent, fs_lookup_store_self]
  · intro q hq
    rw [h1]
    simp [install_hook, fs_lookup_store_ne _ _ _ _ hq]

theorem C7_witness :
    fs_lookup (init_user_repo wCfg [] "carol").1 (repo_path wCfg.REPO_ROOT "carol") =
      some { head_target := "refs/heads/main", receivepack_flag := true
             hook_program := some "HOOK", hook_exec := true
             hook_conf := some (hook_conf_contents wCfg "carol") } ∧
    fs_lookup (init_user_repo wCfg (init_user_repo wCfg [] "carol").1 "carol").1
        (repo_path wCfg.REPO_ROOT "carol") =
      some { head_target := "refs/heads/main", receivepack_flag := true
             hook_program := some "HOOK", hook_exec := true
             hook_conf := some (hook_conf_contents wCfg "carol") } :=
  ⟨rfl,
   (C7_provisioning_idempotent wCfg (init_user_repo wCfg [] "carol").1 "carol"
      { head_target := "refs/heads/main", receivepack_flag := true
        hook_program := some "HOOK", hook_exec := true
        hook_conf := some (hook_conf_contents wCfg "carol") } rfl).2.2.1⟩

/-- C8: for a configured root that is non-empty and has no trailing
slash, the computed repository path is the root, a slash, the retained
alphanumeric characters of the username, and the `.git` suffix — so the
path cannot escape the root — and usernames with the same alphanumeric
characters map to the same path. -/
theorem C8_repo_path_sanitized (root u v : String)
    (hroot : root ≠ "") (hslash : charsEndsWith root "/" = false) :
    (∃ s : String,
      repo_path root u = root ++ "/" ++ (s ++ ".git") ∧
      s.toList.all Char.isAlphanum = true ∧
      s.toList = u.toList.filter Char.isAlphanum) ∧
    (u.toList.filter Char.isAlphanum = v.toList.filter Char.isAlphanum →
      repo_path root u = repo_path root v) := by
  have key : ∀ w : String, repo_path root w = root ++ "/" ++ (sanitize w ++ ".git") := by
    intro w
    have hb : charsStartsWith (sanitize w ++ ".git") "/" = false := by
      rw [charsStartsWith]
      rw [show (sanitize w ++ ".git").toList = (sanitize w).toList ++ ".git".toList from
            String.data_append _ _]
      rw [show (sanitize w).toList = w.toList.filter Char.isAlphanum from rfl]
      cases hfl : w.toList.filter Char.isAlphanum with
      | nil => rfl
      | cons ch rest =>
        have hch : ch.isAlphanum = true := by
          have hmem : ch ∈ w.toList.filter Char.isAlphanum := by
            rw [hfl]; exact List.mem_cons_self _ _
          exact (List.mem_filter.mp hmem).2
        have hne : ('/' == ch) = false := by
          by_contra hcc
          simp only [Bool.not_eq_false, beq_iff_eq] at hcc
          rw [← hcc] at hch
          exact absurd hch (by decide)
        simp [List.isPrefixOf, hne]
    rw [repo_path, path_join, hb, if_neg (by exact Bool.false_ne_true),
        if_neg hroot, hslash, if_neg (by exact Bool.false_ne_true)]
  constructor
  · refine ⟨sanitize u, key u, ?_, rfl⟩
    rw [List.all_eq_true]
    intro ch hmem
    exact (List.mem_filter.mp hmem).2
  · intro heq
    rw [key u, key v]
    have : sanitize u = sanitize v := congrArg String.mk heq
    rw [this]

theorem C8_witness :
    repo_path "/repos" "../../etc/passwd" = repo_path "/repos" "etc..passwd" ∧
    repo_path "/repos" "../../etc/passwd" = "/repos" ++ "/" ++ ("etcpasswd" ++ ".git") :=
  ⟨(C8_repo_path_sanitized "/repos" "../../etc/passwd" "etc..passwd" (by decide)
      (by decide)).2 (by decide),
   rfl⟩

/-- C3: a successful discovery response's body is exactly the pkt-line
banner — whose length prefix is the banner length plus four, rendered in
lowercase zero-padded four-digit hex — followed by the literal
`0000` flush and the subprocess's captured stdout verbatim. -/
theorem C3_discovery_framing (cfg : Config) (c : Crypto) (db : Db) (fs : FileSystem)
    (auth : Option BasicAuth) (username : String) (adv : ProcOut) (svc : String)
    (user : User)
    (hAuth : check_basic_auth c db auth = some user)
    (hU : user.username = username)
    (hSvc : svc = "git-upload-pack" ∨ svc = "git-receive-pack")
    (hRc : adv.returncode = 0) :
    (info_refs cfg c db fs auth (some svc) username adv).2.status = 200 ∧
    (info_refs cfg c db fs auth (some svc) username adv).2.body =
      hex4 (("# service=" ++ svc ++ "\n").length + 4) ++
        ("# service=" ++ svc ++ "\n") ++ "0000" ++ adv.stdout ∧
    (hex4 (("# service=" ++ svc ++ "\n").length + 4)).length = 4 ∧
    (hex4 (("# service=" ++ svc ++ "\n").length + 4)).toList.all isLowerHexDigit = true ∧
    hexStrVal (hex4 (("# service=" ++ svc ++ "\n").length + 4)) =
      ("# service=" ++ svc ++ "\n").length + 4 := by
  have hreq : require_auth c db auth username = .ok user := by
    simp [require_auth, hAuth, hU]
  rcases hSvc with h | h <;> subst h <;>
    refine ⟨?_, ?_, by decide, by decide, by decide⟩ <;>
    simp [info_refs, hreq, hRc]

theorem C3_witness :
    (info_refs wCfg wCrypto wDb [] (some ⟨"alice", "S3cretPW"⟩)
        (some "git-upload-pack") "alice" ⟨0, "REFS", ""⟩).2.body =
      hex4 (("# service=" ++ "git-upload-pack" ++ "\n").length + 4) ++
        ("# service=" ++ "git-upload-pack" ++ "\n") ++ "0000" ++ "REFS" ∧
    (info_refs wCfg wCrypto wDb [] (some ⟨"alice", "S3cretPW"⟩)
        (some "git-upload-pack") "alice" ⟨0, "REFS", ""⟩).2.body =
      "001e# service=git-upload-pack\n0000REFS" :=
  ⟨(C3_discovery_framing wCfg wCrypto wDb [] (some ⟨"alice", "S3cretPW"⟩) "alice"
      ⟨0, "REFS", ""⟩ "git-upload-pack" wAlice rfl rfl (Or.inl rfl) rfl).2.1,
   rfl⟩

/-- C1 counterexample: a Git gateway discovery request for the
nonexistent repository of registered identity carol, carrying Basic Auth
whose password equals the configured privileged shared secret, is
rejected 401 (not 200) and provisions nothing — the gateway's Basic
Auth has no shared-secret bypass. -/
theorem C1_counterexample :
    (info_refs wCfg wCrypto wDb [] (some ⟨"carol", "hooktok"⟩)
        (some "git-receive-pack") "carol" ⟨0, "", ""⟩).2.status = 401 ∧
    (info_refs wCfg wCrypto wDb [] (some ⟨"carol", "hooktok"⟩)
        (some "git-receive-pack") "carol" ⟨0, "", ""⟩).2.status ≠ 200 ∧
    (info_refs wCfg wCrypto wDb [] (some ⟨"carol", "hooktok"⟩)
        (some "git-receive-pack") "carol" ⟨0, "", ""⟩).1 = [] := by
  have h : (info_refs wCfg wCrypto wDb [] (some ⟨"carol", "hooktok"⟩)
      (some "git-receive-pack") "carol" ⟨0, "", ""⟩).2.status = 401 := rfl
  exact ⟨h, by rw [h]; decide, rfl⟩

/-- C1 (amended): the privileged-shared-secret bypass belongs to the
Bearer-token API authentication, not to the Git gateway's Basic Auth:
a request whose Bearer token equals the configured non-empty admin
token and whose `X-ListHub-User` header names a registered identity
resolves to that identity with full read/write/sync scopes, bypassing
per-identity credential checks; whereas a Git gateway Basic Auth
request whose password is the admin token goes through the ordinary
password/API-key checks for the named identity, and is rejected with
the 401 challenge when both fail. -/
theorem C1_admin_bypass_api_bearer_only (cfg : Config) (c : Crypto) (db : Db)
    (headers : List (String × String)) (user : User) (a : BasicAuth) (gu : User)
    (hTok : cfg.ADMIN_TOKEN ≠ "")
    (hAuth : get_header headers "Authorization" = "Bearer " ++ cfg.ADMIN_TOKEN)
    (hTarget : get_header headers "X-ListHub-User" = user.username)
    (hNonempty : user.username ≠ "")
    (hFound : get_by_username db user.username = some user)
    (hga : a.password = cfg.ADMIN_TOKEN)
    (hgfound : get_by_username db a.username = some gu)
    (hnopw : c.checkpw cfg.ADMIN_TOKEN gu.password_hash ≠ some true)
    (hnokey : db.api_keys.find?
        (fun k => k.key_hash == c.sha256_hex cfg.ADMIN_TOKEN && k.user_id == gu.id) =
      none) :
    require_api_auth cfg c db false headers =
      .viaToken user ["read", "write", "sync"] ∧
    check_basic_auth c db (some a) = none ∧
    (∀ username : String,
      require_auth c db (some a) username = .error authRequired401) := by
  have hapi : require_api_auth cfg c db false headers =
      .viaToken user ["read", "write", "sync"] := by
    simp only [require_api_auth, if_false, hAuth, charsStartsWith_append_self,
      if_true, strDrop_bearer, hTarget, hFound]
    simp [hTok, hNonempty, hFound]
  have hgit : check_basic_auth c db (some a) = none := by
    by_cases hu : a.username = ""
    · simp [check_basic_auth, hu]
    · by_cases hp : a.password = ""
      · simp [check_basic_auth, hp]
      · simp [check_basic_auth, hu, hp, hgfound, hga, hnopw, hnokey]
  exact ⟨hapi, hgit, fun username => by simp [require_auth, hgit]⟩

theorem C1_witness :
    require_api_auth wCfg wCrypto wDb false
        [("Authorization", "Bearer hooktok"), ("X-ListHub-User", "carol")] =
      .viaToken wCarol ["read", "write", "sync"] ∧
    check_basic_auth wCrypto wDb (some ⟨"carol", "hooktok"⟩) = none :=
  ⟨(C1_admin_bypass_api_bearer_only wCfg wCrypto wDb
      [("Authorization", "Bearer hooktok"), ("X-ListHub-User", "carol")]
      wCarol ⟨"carol", "hooktok"⟩ wCarol (by decide) rfl rfl (by decide) rfl rfl rfl
      (by decide) rfl).1,
   (C1_admin_bypass_api_bearer_only wCfg wCrypto wDb
      [("Authorization", "Bearer hooktok"), ("X-ListHub-User", "carol")]
      wCarol ⟨"carol", "hooktok"⟩ wCarol (by decide) rfl rfl (by decide) rfl rfl rfl
      (by decide) rfl).2.1⟩

end ListHub
